import Mathlib

/-!
Shallow embedding of the `springs` repository (a compression-spring property
calculator): `units.py` (conversion constants) and `springs.py` (`Material`,
`Spring`).  Python floats are modelled as real numbers; Python exceptions
(`ZeroDivisionError` from float division by zero, `ValueError` from `pow` with
a negative base and fractional exponent, `AttributeError` from reading an
attribute that was never set) are modelled with `Except`.
-/

/-- Python exceptions that the embedded code can raise.  The repository defines
no exception classes of its own (in particular no `DomainError`,
`UnsupportedMaterial` or `InvalidGeometry`), so only built-in Python exceptions
appear. -/
inductive PyErr where
  | zeroDivisionError
  | valueError
  | attributeError
deriving DecidableEq, Repr

namespace units

/-- `units.inch`: inches to meters. -/
def inch : ℝ := 0.0254

/-- `units.ft`: feet to meters. -/
def ft : ℝ := 12 * inch

/-- `units.ksi`: ksi to Pa. -/
def ksi : ℝ := 6.89475908677537e6

/-- `units.psi`: psi to Pa. -/
def psi : ℝ := 6894.75729

/-- `units.lb`: pound-mass to kg. -/
def lb : ℝ := 0.453592

/-- `units.oz`: ounce-mass to kg. -/
noncomputable def oz : ℝ := lb / 16.0

/-- `units.lbf`: pound-force to N. -/
def lbf : ℝ := 4.44822

/-- `units.ozf`: ounce-force to N. -/
noncomputable def ozf : ℝ := lbf / 16.0

/-- `units.grains`: grains to kg. -/
def grains : ℝ := 6.479891e-5

/-- `units.g`: standard gravity, m/s^2. -/
def g : ℝ := 9.81

end units

/-- Python float division `a / b`: raises `ZeroDivisionError` when `b = 0`. -/
noncomputable def pydiv (a b : ℝ) : Except PyErr ℝ :=
  if b = 0 then .error .zeroDivisionError else .ok (a / b)

/-- Python built-in `pow(x, 0.25)` on floats: raises `ValueError` for a
negative base (fractional exponent), otherwise returns the real fourth
root `x ^ (0.25 : ℝ)`. -/
noncomputable def pypow025 (x : ℝ) : Except PyErr ℝ :=
  if x < 0 then .error .valueError else .ok (x ^ (0.25 : ℝ))

/-- `math.atan2 y x`, as the argument of the complex number `x + y*i`
(both agree on all of ℝ², including `atan2 0 0 = 0`). -/
noncomputable def atan2 (y x : ℝ) : ℝ := Complex.arg ⟨x, y⟩

/-- Python `str.lower()`, written with structural recursion over the
character list so that it evaluates by `decide`. -/
def pyLower (s : String) : String := ⟨s.data.map Char.toLower⟩

/-- `springs.Material`: `__init__` only assigns the three attributes when the
name matches `'steel'`; otherwise they stay unset, which we model with
`Option`. -/
structure Material where
  youngs_modulus : Option ℝ
  poisson_ratio : Option ℝ
  density : Option ℝ

/-- `Material.__init__(material)`: on `'steel'` (case-insensitive) set
E = 29e6 psi, ν = 0.3, ρ = 0.284 lb/in³; otherwise print a warning
(returned as the second component) and leave every attribute unset. -/
noncomputable def Material.init (material : String) : Material × List String :=
  if pyLower material = "steel" then
    ({ youngs_modulus := some (29e6 * units.psi)
       poisson_ratio := some 0.3
       density := some (0.284 * units.lb / units.inch ^ 3) }, [])
  else
    ({ youngs_modulus := none, poisson_ratio := none, density := none },
     ["I am not sure about that material"])

/-- `Material.shear_modulus()`: `E / (2*(1+ν))`; reading an attribute that
`__init__` never set raises `AttributeError`. -/
noncomputable def Material.shear_modulus (m : Material) : Except PyErr ℝ :=
  match m.youngs_modulus, m.poisson_ratio with
  | some E, some ν => pydiv E (2 * (1 + ν))
  | _, _ => .error .attributeError

/-- The steel material, `Material(Material.STEEL)`. -/
noncomputable def steel : Material := (Material.init "steel").1

/-- Steel's shear modulus `E / 2.6` with `E = 29e6 psi` in Pa. -/
noncomputable def steelG : ℝ := 29e6 * units.psi / 2.6

/-- `springs.Spring`: the four geometry fields (floats) and the material. -/
structure Spring where
  mean_diameter : ℝ
  wire_diameter : ℝ
  free_length : ℝ
  num_coils : ℝ
  material : Material

/-- `Spring.__init__`: stores the four numbers (via `float(...)`) and the
material unconditionally; the source performs no validation of any kind, so
construction always succeeds. -/
def Spring.init (mean_diameter wire_diameter free_length num_coils : ℝ)
    (material : Material) : Spring :=
  ⟨mean_diameter, wire_diameter, free_length, num_coils, material⟩

namespace Spring

/-- `inside_diameter()`: `D - d`. -/
def inside_diameter (s : Spring) : ℝ := s.mean_diameter - s.wire_diameter

/-- `outside_diameter()`: `D + d`. -/
def outside_diameter (s : Spring) : ℝ := s.mean_diameter + s.wire_diameter

/-- `spring_constant()`: `G * d^4 / (8 * D^3 * N)`. -/
noncomputable def spring_constant (s : Spring) : Except PyErr ℝ :=
  match s.material.shear_modulus with
  | .error e => .error e
  | .ok G => pydiv (G * s.wire_diameter ^ 4) (8 * s.mean_diameter ^ 3 * s.num_coils)

/-- `coil_pitch()`: `L0 / N`. -/
noncomputable def coil_pitch (s : Spring) : Except PyErr ℝ :=
  pydiv s.free_length s.num_coils

/-- `rise_angle()`: `math.atan2(coil_pitch(), math.pi * D)`. -/
noncomputable def rise_angle (s : Spring) : Except PyErr ℝ :=
  match s.coil_pitch with
  | .error e => .error e
  | .ok p => .ok (atan2 p (Real.pi * s.mean_diameter))

/-- `solid_height()`: `d * (N + 2)`. -/
def solid_height (s : Spring) : ℝ := s.wire_diameter * (s.num_coils + 2)

/-- `max_displacement()`: `L0 - solid_height()`. -/
def max_displacement (s : Spring) : ℝ := s.free_length - s.solid_height

/-- `wire_length()`: `pi * D * (N / cos(rise_angle()) + 2)`. -/
noncomputable def wire_length (s : Spring) : Except PyErr ℝ :=
  match s.rise_angle with
  | .error e => .error e
  | .ok a =>
    match pydiv s.num_coils (Real.cos a) with
    | .error e => .error e
    | .ok q => .ok (Real.pi * s.mean_diameter * (q + 2))

/-- `max_force()`: `spring_constant() * (L0 - solid_height())`. -/
noncomputable def max_force (s : Spring) : Except PyErr ℝ :=
  match s.spring_constant with
  | .error e => .error e
  | .ok k => .ok (k * (s.free_length - s.solid_height))

/-- `spring_index()`: `D / d`. -/
noncomputable def spring_index (s : Spring) : Except PyErr ℝ :=
  pydiv s.mean_diameter s.wire_diameter

/-- `whal()`: `(4C-1)/(4C-4) + 0.615/C` with `C = spring_index()`, evaluated
left to right as in the source. -/
noncomputable def whal (s : Spring) : Except PyErr ℝ :=
  match s.spring_index with
  | .error e => .error e
  | .ok C =>
    match pydiv (4 * C - 1) (4 * C - 4) with
    | .error e => .error e
    | .ok t1 =>
      match pydiv 0.615 C with
      | .error e => .error e
      | .ok t2 => .ok (t1 + t2)

/-- `max_shear()`: `8 * whal() * D * max_force() / (pi * d^3)`. -/
noncomputable def max_shear (s : Spring) : Except PyErr ℝ :=
  match s.whal with
  | .error e => .error e
  | .ok W =>
    match s.max_force with
    | .error e => .error e
    | .ok F => pydiv (8 * W * s.mean_diameter * F) (Real.pi * s.wire_diameter ^ 3)

/-- `Spring.solve_diameter(D, N, k, material)`:
`pow(8*k*N*D^3 / material.shear_modulus(), 0.25)`. -/
noncomputable def solve_diameter (mean_diameter num_coils spring_constant : ℝ)
    (material : Material) : Except PyErr ℝ :=
  match material.shear_modulus with
  | .error e => .error e
  | .ok den =>
    match pydiv (8.0 * spring_constant * num_coils * mean_diameter ^ 3) den with
    | .error e => .error e
    | .ok r => pypow025 r

end Spring

/-- The `efunda` example spring from the self-test block:
`Spring((0.500-0.035)*u.inch, 0.035*u.inch, 1*u.inch, 8, steel)`. -/
noncomputable def efunda : Spring :=
  Spring.init ((0.500 - 0.035) * units.inch) (0.035 * units.inch)
    (1 * units.inch) 8 steel

theorem pydiv_ok (a b : ℝ) (hb : b ≠ 0) : pydiv a b = .ok (a / b) := by
  unfold pydiv
  rw [if_neg hb]

theorem pydiv_zero (a : ℝ) : pydiv a 0 = .error .zeroDivisionError := by
  unfold pydiv
  rw [if_pos rfl]

theorem pypow025_ok (x : ℝ) (hx : 0 ≤ x) :
    pypow025 x = .ok (x ^ (0.25 : ℝ)) := by
  unfold pypow025
  rw [if_neg (not_lt.2 hx)]

theorem steel_fields :
    steel.youngs_modulus = some (29e6 * units.psi) ∧
    steel.poisson_ratio = some 0.3 ∧
    steel.density = some (0.284 * units.lb / units.inch ^ 3) := by
  have h : pyLower "steel" = "steel" := by decide
  unfold steel Material.init
  rw [if_pos h]
  exact ⟨rfl, rfl, rfl⟩

theorem steel_shear : steel.shear_modulus = .ok steelG := by
  have h : pyLower "steel" = "steel" := by decide
  unfold Material.shear_modulus steel Material.init
  rw [if_pos h]
  show pydiv (29e6 * units.psi) (2 * (1 + 0.3)) = Except.ok steelG
  rw [pydiv_ok _ _ (by norm_num)]
  unfold steelG
  norm_num

theorem steelG_pos : 0 < steelG := by
  unfold steelG units.psi
  norm_num

/-- C9: for every `Spring`, `outside_diameter() - inside_diameter() = 2*d`
(exactly, hence also within floating tolerance). -/
theorem outside_minus_inside_eq_two_wire (s : Spring) :
    s.outside_diameter - s.inside_diameter = 2 * s.wire_diameter := by
  unfold Spring.outside_diameter Spring.inside_diameter
  ring

/-- C5: the steel `Material` carries E = 29e6 psi (in Pa, `units.psi` being
the psi-to-pascal factor 6894.75729), ν = 0.3 and ρ = 0.284 lb/in³ (in kg/m³),
and `shear_modulus()` returns `E / (2*(1+ν))`, which equals `E / 2.6` exactly
(hence within floating tolerance). -/
theorem steel_material_constants :
    steel.youngs_modulus = some (29e6 * units.psi) ∧
    units.psi = 6894.75729 ∧
    steel.poisson_ratio = some 0.3 ∧
    steel.density = some (0.284 * units.lb / units.inch ^ 3) ∧
    steel.shear_modulus = .ok (29e6 * units.psi / (2 * (1 + 0.3))) ∧
    29e6 * units.psi / (2 * (1 + 0.3)) = 29e6 * units.psi / 2.6 := by
  refine ⟨steel_fields.1, rfl, steel_fields.2.1, steel_fields.2.2, ?_, by norm_num⟩
  rw [steel_shear]
  unfold steelG
  norm_num

/-- C2 (code_bug evidence): `Material('wood')` does not fail; the source
prints a warning and returns an object with every material attribute unset
(the repository has no `UnsupportedMaterial` exception at all), and only a
later `shear_modulus()` call trips over the missing attribute with Python's
`AttributeError`. -/
theorem material_unknown_name_warns_and_continues :
    Material.init "wood" =
      ({ youngs_modulus := none, poisson_ratio := none, density := none },
       ["I am not sure about that material"]) ∧
    (Material.init "wood").1.shear_modulus = .error .attributeError := by
  have h : pyLower "wood" ≠ "steel" := by decide
  constructor
  · unfold Material.init
    rw [if_neg h]
  · unfold Material.shear_modulus Material.init
    rw [if_neg h]

/-- C4 (code_bug evidence): `Spring.__init__` performs no validation, so a
spring with wire diameter 2 strictly larger than mean diameter 1 (d ≥ D) is
constructed successfully — the repository has no `InvalidGeometry` exception —
and the resulting object even reports a negative inside diameter. -/
theorem spring_init_accepts_invalid_geometry :
    (Spring.init 1 2 1 1 steel).mean_diameter = 1 ∧
    (Spring.init 1 2 1 1 steel).wire_diameter = 2 ∧
    (Spring.init 1 2 1 1 steel).inside_diameter = -1 := by
  refine ⟨rfl, rfl, ?_⟩
  unfold Spring.inside_diameter Spring.init
  norm_num

/-- C3 (code_bug evidence): the repository defines no `DomainError`.
`solve_diameter` with `N = 0` (violating `N > 0`) does not fail at all: the
numerator `8*k*0*D^3` is `0`, `0/G = 0`, and `pow(0, 0.25)` silently returns
`0.0`.  At the Wahl pole `C = 1` (a spring with `d = D = 2`) the code raises
Python's built-in `ZeroDivisionError`, not a `DomainError`. -/
theorem solve_diameter_silent_zero_and_wahl_pole_zerodiv :
    Spring.solve_diameter 1 0 1 steel = .ok 0 ∧
    (Spring.init 2 2 1 1 steel).whal = .error .zeroDivisionError := by
  constructor
  · unfold Spring.solve_diameter
    have h1 : pydiv (8.0 * 1 * 0 * (1 : ℝ) ^ 3) steelG = .ok 0 := by
      rw [pydiv_ok _ _ (ne_of_gt steelG_pos)]
      norm_num
    simp only [steel_shear, h1]
    unfold pypow025
    rw [if_neg (by norm_num : ¬(0 : ℝ) < 0), Real.zero_rpow (by norm_num : (0.25 : ℝ) ≠ 0)]
  · have hidx : (Spring.init 2 2 1 1 steel).spring_index = .ok 1 := by
      show pydiv 2 2 = .ok 1
      rw [pydiv_ok _ _ (by norm_num : (2 : ℝ) ≠ 0)]
      norm_num
    have h3 : pydiv (4 * (1 : ℝ) - 1) (4 * 1 - 4) = .error .zeroDivisionError := by
      rw [show (4 * (1 : ℝ) - 4) = 0 by norm_num]
      exact pydiv_zero _
    unfold Spring.whal
    simp only [hidx, h3]

/-- C7: for every `Spring` whose material has a shear modulus `G` and whose
mean diameter and coil count are nonzero (in particular for every spring with
valid geometry and material), `spring_constant()` returns
`G*d^4 / (8*D^3*N)` and `max_force()` returns
`spring_constant() * max_displacement()`. -/
theorem spring_constant_formula_and_max_force (s : Spring) (G : ℝ)
    (hG : s.material.shear_modulus = .ok G)
    (hD : s.mean_diameter ≠ 0) (hN : s.num_coils ≠ 0) :
    s.spring_constant =
      .ok (G * s.wire_diameter ^ 4 / (8 * s.mean_diameter ^ 3 * s.num_coils)) ∧
    s.max_force =
      .ok (G * s.wire_diameter ^ 4 / (8 * s.mean_diameter ^ 3 * s.num_coils) *
        s.max_displacement) := by
  have hden : 8 * s.mean_diameter ^ 3 * s.num_coils ≠ 0 :=
    mul_ne_zero (mul_ne_zero (by norm_num) (pow_ne_zero 3 hD)) hN
  have hk : s.spring_constant =
      .ok (G * s.wire_diameter ^ 4 / (8 * s.mean_diameter ^ 3 * s.num_coils)) := by
    unfold Spring.spring_constant
    simp only [hG, pydiv_ok _ _ hden]
  refine ⟨hk, ?_⟩
  unfold Spring.max_force
  simp only [hk]
  rfl

/-- C7 witness: the concrete spring `Spring(2, 1, 1, 1, steel)`. -/
theorem spring_constant_formula_and_max_force_witness :
    (Spring.init 2 1 1 1 steel).spring_constant =
      .ok (steelG * (Spring.init 2 1 1 1 steel).wire_diameter ^ 4 /
        (8 * (Spring.init 2 1 1 1 steel).mean_diameter ^ 3 *
          (Spring.init 2 1 1 1 steel).num_coils)) ∧
    (Spring.init 2 1 1 1 steel).max_force =
      .ok (steelG * (Spring.init 2 1 1 1 steel).wire_diameter ^ 4 /
        (8 * (Spring.init 2 1 1 1 steel).mean_diameter ^ 3 *
          (Spring.init 2 1 1 1 steel).num_coils) *
        (Spring.init 2 1 1 1 steel).max_displacement) :=
  spring_constant_formula_and_max_force (Spring.init 2 1 1 1 steel) steelG
    steel_shear (by norm_num [Spring.init]) (by norm_num [Spring.init])

/-- C10: for every `Spring` whose spring index `C` is strictly greater than 1,
`whal()` returns the Wahl factor `(4C-1)/(4C-4) + 0.615/C`, and that value is
strictly greater than 1, so the correction in `max_shear` amplifies the
uncorrected stress. -/
theorem wahl_factor_gt_one (s : Spring) (C : ℝ)
    (hC : s.spring_index = .ok C) (h1 : 1 < C) :
    s.whal = .ok ((4 * C - 1) / (4 * C - 4) + 0.615 / C) ∧
    1 < (4 * C - 1) / (4 * C - 4) + 0.615 / C := by
  have hC4pos : 0 < 4 * C - 4 := by linarith
  have hC0 : C ≠ 0 := ne_of_gt (lt_trans zero_lt_one h1)
  constructor
  · unfold Spring.whal
    simp only [hC, pydiv_ok _ _ (ne_of_gt hC4pos), pydiv_ok _ _ hC0]
  · have ha : 1 < (4 * C - 1) / (4 * C - 4) := by
      rw [one_lt_div hC4pos]
      linarith
    have hb : 0 < 0.615 / C := div_pos (by norm_num) (by linarith)
    linarith

/-- C10 witness: the concrete spring `Spring(2, 1, 1, 1, steel)` with spring
index 2. -/
theorem wahl_factor_gt_one_witness :
    (Spring.init 2 1 1 1 steel).whal =
      .ok ((4 * 2 - 1) / (4 * 2 - 4) + 0.615 / 2) ∧
    1 < (4 * (2 : ℝ) - 1) / (4 * 2 - 4) + 0.615 / 2 :=
  wahl_factor_gt_one (Spring.init 2 1 1 1 steel) 2
    (by show pydiv 2 1 = .ok 2
        rw [pydiv_ok _ _ (by norm_num : (1 : ℝ) ≠ 0)]
        norm_num)
    (by norm_num)

/-- C8: for every `Spring` with a nonzero coil count, `rise_angle()` returns
`atan2(coil_pitch, pi*D)`, and when the pitch `L0/N` is zero (and `D > 0`,
as for any valid geometry) it returns exactly `0` rather than failing. -/
theorem rise_angle_formula_and_zero_pitch (s : Spring) (hN : s.num_coils ≠ 0) :
    s.rise_angle =
      .ok (atan2 (s.free_length / s.num_coils) (Real.pi * s.mean_diameter)) ∧
    (0 < s.mean_diameter → s.free_length / s.num_coils = 0 →
      s.rise_angle = .ok 0) := by
  have h1 : s.rise_angle =
      .ok (atan2 (s.free_length / s.num_coils) (Real.pi * s.mean_diameter)) := by
    unfold Spring.rise_angle Spring.coil_pitch
    simp only [pydiv_ok _ _ hN]
  refine ⟨h1, fun hD hp => ?_⟩
  rw [h1, hp]
  have h2 : atan2 0 (Real.pi * s.mean_diameter) = 0 := by
    unfold atan2
    have hx : (0 : ℝ) ≤ Real.pi * s.mean_diameter :=
      le_of_lt (mul_pos Real.pi_pos hD)
    have h3 : (⟨Real.pi * s.mean_diameter, 0⟩ : ℂ) =
        ((Real.pi * s.mean_diameter : ℝ) : ℂ) := rfl
    rw [h3, Complex.arg_ofReal_of_nonneg hx]
  rw [h2]

/-- C8 witness: the concrete spring `Spring(1, 0.5, 0, 2, steel)` with zero
free length, hence zero coil pitch; its rise angle is exactly `0`. -/
theorem rise_angle_formula_and_zero_pitch_witness :
    (Spring.init 1 0.5 0 2 steel).rise_angle = .ok 0 :=
  (rise_angle_formula_and_zero_pitch (Spring.init 1 0.5 0 2 steel)
      (by norm_num [Spring.init])).2
    (by norm_num [Spring.init]) (by norm_num [Spring.init])

/-- C1: for every mean diameter `D > 0`, coil count `N > 0`, target rate
`k > 0` and material with a (positive) shear modulus `G`, the spring built
with the wire diameter returned by `solve_diameter(D, N, k, material)` and the
same `D`, `N`, material has `spring_constant()` exactly equal to `k` — in
particular within `1e-9` relative error. -/
theorem solve_diameter_right_inverse (D N k L G : ℝ) (m : Material)
    (hD : 0 < D) (hN : 0 < N) (hk : 0 < k)
    (hG : m.shear_modulus = .ok G) (hGpos : 0 < G) (d : ℝ)
    (hd : Spring.solve_diameter D N k m = .ok d) :
    (Spring.init D d L N m).spring_constant = .ok k := by
  have hx : (0 : ℝ) ≤ 8.0 * k * N * D ^ 3 / G :=
    le_of_lt (div_pos (by positivity) hGpos)
  unfold Spring.solve_diameter at hd
  simp only [hG, pydiv_ok _ _ (ne_of_gt hGpos), pypow025_ok _ hx,
    Except.ok.injEq] at hd
  subst hd
  have hden : 8 * D ^ 3 * N ≠ 0 :=
    mul_ne_zero (mul_ne_zero (by norm_num) (pow_ne_zero 3 (ne_of_gt hD)))
      (ne_of_gt hN)
  show Spring.spring_constant ⟨D, _, L, N, m⟩ = .ok k
  unfold Spring.spring_constant
  simp only [hG, pydiv_ok _ _ hden]
  congr 1
  have h4 : ((8.0 * k * N * D ^ 3 / G) ^ (0.25 : ℝ)) ^ (4 : ℕ) =
      8.0 * k * N * D ^ 3 / G := by
    rw [← Real.rpow_natCast ((8.0 * k * N * D ^ 3 / G) ^ (0.25 : ℝ)) 4,
      ← Real.rpow_mul hx]
    norm_num
  rw [h4]
  field_simp
  ring

/-- C1 witness: `D = N = k = 1` with the steel material. -/
theorem solve_diameter_right_inverse_witness :
    (Spring.init 1 ((8.0 * 1 * 1 * (1 : ℝ) ^ 3 / steelG) ^ (0.25 : ℝ)) 1 1
      steel).spring_constant = .ok 1 :=
  solve_diameter_right_inverse 1 1 1 1 steelG steel (by norm_num) (by norm_num)
    (by norm_num) steel_shear steelG_pos _
    (by unfold Spring.solve_diameter
        simp only [steel_shear, pydiv_ok _ _ (ne_of_gt steelG_pos),
          pypow025_ok _ (le_of_lt (div_pos
            (by norm_num : (0 : ℝ) < 8.0 * 1 * 1 * 1 ^ 3) steelG_pos))])

/-- C6: the efunda scenario `D = (0.5-0.035) in`, `d = 0.035 in`, `L0 = 1 in`,
`N = 8`, steel: `spring_index()` is `D/d ≈ 13.29` (within rounding distance
0.005), `solid_height()` is exactly `0.35 in`, `max_displacement()` is exactly
`0.65 in`, and `spring_constant()` and `max_shear()` equal their closed-form
formulas `G*d^4/(8*D^3*N)` and `8*W*D*F/(pi*d^3)` exactly — hence within
`1e-6` relative error. -/
theorem efunda_scenario :
    efunda.spring_index =
      .ok ((0.500 - 0.035) * units.inch / (0.035 * units.inch)) ∧
    |(0.500 - 0.035) * units.inch / (0.035 * units.inch) - 13.29| < 0.005 ∧
    efunda.solid_height = 0.35 * units.inch ∧
    efunda.max_displacement = 0.65 * units.inch ∧
    efunda.spring_constant =
      .ok (steelG * (0.035 * units.inch) ^ 4 /
        (8 * ((0.500 - 0.035) * units.inch) ^ 3 * 8)) ∧
    efunda.max_shear =
      .ok (8 *
        ((4 * ((0.500 - 0.035) * units.inch / (0.035 * units.inch)) - 1) /
          (4 * ((0.500 - 0.035) * units.inch / (0.035 * units.inch)) - 4) +
         0.615 / ((0.500 - 0.035) * units.inch / (0.035 * units.inch))) *
        ((0.500 - 0.035) * units.inch) *
        (steelG * (0.035 * units.inch) ^ 4 /
          (8 * ((0.500 - 0.035) * units.inch) ^ 3 * 8) *
          (1 * units.inch - 0.035 * units.inch * (8 + 2))) /
        (Real.pi * (0.035 * units.inch) ^ 3)) := by
  have hd0 : (0.035 * units.inch : ℝ) ≠ 0 := by norm_num [units.inch]
  have hC : efunda.spring_index =
      .ok ((0.500 - 0.035) * units.inch / (0.035 * units.inch)) := by
    show pydiv ((0.500 - 0.035) * units.inch) (0.035 * units.inch) = _
    exact pydiv_ok _ _ hd0
  have hden : (8 * ((0.500 - 0.035) * units.inch) ^ 3 * (8 : ℝ)) ≠ 0 := by
    norm_num [units.inch]
  have hk : efunda.spring_constant =
      .ok (steelG * (0.035 * units.inch) ^ 4 /
        (8 * ((0.500 - 0.035) * units.inch) ^ 3 * 8)) := by
    have hm : efunda.material = steel := rfl
    unfold Spring.spring_constant
    simp only [hm, steel_shear]
    show pydiv (steelG * (0.035 * units.inch) ^ 4)
        (8 * ((0.500 - 0.035) * units.inch) ^ 3 * 8) = _
    exact pydiv_ok _ _ hden
  have hF : efunda.max_force =
      .ok (steelG * (0.035 * units.inch) ^ 4 /
        (8 * ((0.500 - 0.035) * units.inch) ^ 3 * 8) *
        (1 * units.inch - 0.035 * units.inch * (8 + 2))) := by
    unfold Spring.max_force
    simp only [hk]
    rfl
  have hW : efunda.whal =
      .ok ((4 * ((0.500 - 0.035) * units.inch / (0.035 * units.inch)) - 1) /
        (4 * ((0.500 - 0.035) * units.inch / (0.035 * units.inch)) - 4) +
        0.615 / ((0.500 - 0.035) * units.inch / (0.035 * units.inch))) := by
    have h4 : (4 * ((0.500 - 0.035) * units.inch / (0.035 * units.inch)) - 4 : ℝ) ≠ 0 := by
      norm_num [units.inch]
    have hq : ((0.500 - 0.035) * units.inch / (0.035 * units.inch) : ℝ) ≠ 0 := by
      norm_num [units.inch]
    unfold Spring.whal
    simp only [hC, pydiv_ok _ _ h4, pydiv_ok _ _ hq]
  have hpid : (Real.pi * (0.035 * units.inch) ^ 3 : ℝ) ≠ 0 :=
    mul_ne_zero (ne_of_gt Real.pi_pos) (by norm_num [units.inch])
  have hDm : efunda.mean_diameter = (0.500 - 0.035) * units.inch := rfl
  have hdm : efunda.wire_diameter = 0.035 * units.inch := rfl
  have hshear : efunda.max_shear =
      .ok (8 *
        ((4 * ((0.500 - 0.035) * units.inch / (0.035 * units.inch)) - 1) /
          (4 * ((0.500 - 0.035) * units.inch / (0.035 * units.inch)) - 4) +
         0.615 / ((0.500 - 0.035) * units.inch / (0.035 * units.inch))) *
        ((0.500 - 0.035) * units.inch) *
        (steelG * (0.035 * units.inch) ^ 4 /
          (8 * ((0.500 - 0.035) * units.inch) ^ 3 * 8) *
          (1 * units.inch - 0.035 * units.inch * (8 + 2))) /
        (Real.pi * (0.035 * units.inch) ^ 3)) := by
    unfold Spring.max_shear
    simp only [hW, hF, hDm, hdm]
    exact pydiv_ok _ _ hpid
  refine ⟨hC, ?_, ?_, ?_, hk, hshear⟩
  · rw [abs_lt]
    constructor <;> norm_num [units.inch]
  · show (0.035 * units.inch) * (8 + 2) = 0.35 * units.inch
    norm_num [units.inch]
  · show 1 * units.inch - (0.035 * units.inch) * (8 + 2) = 0.65 * units.inch
    norm_num [units.inch]
